import Mathlib

/-!
Shallow embedding of the taskbook core (zcong1993/taskbook): the entity
model, id allocation, id validation, the filter/group query engine and the
command orchestration layer, translated from `src/unnamed/part_000`
(the `Taskbook` class) and `src/storage.js` / `src/dynamo.js`.

Modelling conventions:
* A JS collection object (`_data`, `_archive`) is an association list
  `List (Nat × Item)` from id to item, in key iteration order.
* Items carry the discriminator-flag shape of the source (`_isTask` plus a
  flat record of fields).  A `Note` simply leaves the task-only fields at
  their JS-falsy values (`false`, priority `1`), mirroring that reads of an
  absent JS property are falsy.
* `process.exit(1)` after a render error is `Except.error TbError.exited`;
  an uncaught runtime `TypeError` (from the missing `await` bugs, see
  `beginTasks`, `editDescription`, `restoreItems`) is
  `Except.error TbError.crashed`.  In either case the command produces no
  collection and performs no write.
* JS priorities travel as the digit character of `p:N`; the model carries
  the corresponding numeral.
-/

namespace Taskbook

/-- The discriminator-flag item record persisted by the program
(`src/unnamed/part_000` uses `_isTask`, `_id`, `_date`, `description`,
`boards`, `isStarred`, and for tasks `priority`, `isComplete`,
`inProgress`). -/
structure Item where
  itemId : Nat
  date : String
  description : String
  boards : List String
  isStarred : Bool
  isTask : Bool
  priority : Nat
  isComplete : Bool
  inProgress : Bool
  deriving Repr, DecidableEq

/-- A collection (`_data` or `_archive`): id-to-item mapping in key order. -/
abbrev Collection := List (Nat × Item)

/-- Outcome of a command that does not return normally. -/
inductive TbError where
  /-- `render.xxx(); process.exit(1)` -/
  | exited
  /-- uncaught TypeError from a missing `await` -/
  | crashed
  deriving Repr, DecidableEq

/-- Result of a command: a normal value, or termination without effect. -/
abbrev Res (α : Type) := Except TbError α

/-- `Object.keys(data).map(id => parseInt(id, 10))` (`_getIDs`). -/
def getIDs (data : Collection) : List Nat := data.map (·.1)

/-- JS `data[id]` read: first entry with the given key. -/
def lookup (id : Nat) : Collection → Option Item
  | [] => none
  | p :: rest => if p.1 = id then some p.2 else lookup id rest

/-- JS `data[id] = item`: replace the entry in place, or append a new key. -/
def setItem (id : Nat) (it : Item) : Collection → Collection
  | [] => [(id, it)]
  | p :: rest => if p.1 = id then (id, it) :: rest else p :: setItem id it rest

/-- JS `delete data[id]`. -/
def eraseItem (id : Nat) : Collection → Collection
  | [] => []
  | p :: rest => if p.1 = id then rest else p :: eraseItem id rest

/-- `_generateID(data)`: `Math.max(...ids) + 1`, or `0 + 1` when the
collection has no keys (`src/unnamed/part_000` lines 38-45). -/
def _generateID (data : Collection) : Nat :=
  let ids := getIDs data
  let mx := if ids.isEmpty then 0 else ids.foldl Nat.max 0
  mx + 1

/-- `_removeDuplicates`: `[...new Set(xs)]`, keeping first occurrences. -/
def _removeDuplicates [DecidableEq α] : List α → List α
  | [] => []
  | x :: xs => x :: _removeDuplicates (xs.filter (fun y => y ≠ x))
  termination_by l => l.length
  decreasing_by
    simp only [List.length_cons]
    exact Nat.lt_succ_of_le (List.length_filter_le _ _)

/-- `_validateIDs(inputIDs, existingIDs)` (lines 47-67): exit when the input
list is empty, deduplicate, exit when some id is not among the existing
ids, otherwise return the deduplicated ids. -/
def _validateIDs (inputIDs existingIDs : List Nat) : Res (List Nat) :=
  if inputIDs.isEmpty then Except.error TbError.exited
  else
    let ds := _removeDuplicates inputIDs
    if ds.all (fun id => existingIDs.contains id) then Except.ok ds
    else Except.error TbError.exited

/-- `_isPriorityOpt(x)`: `['p:1','p:2','p:3'].indexOf(x) > -1`. -/
def _isPriorityOpt (x : String) : Bool :=
  (["p:1", "p:2", "p:3"] : List String).contains x

/-- JS `opt[opt.length - 1]` on a priority token yields its digit character;
the model carries the corresponding numeral (0 for a non-digit). -/
def priorityDigit (s : String) : Nat :=
  match s.data.getLast? with
  | some c => c.toNat - 48
  | none => 1

/-- `_getPriority(desc)`: digit of the first priority token, else `1`. -/
def _getPriority (input : List String) : Nat :=
  match input.find? _isPriorityOpt with
  | some opt => priorityDigit opt
  | none => 1

/-- JS `x.startsWith('@')` for the single character `@`: the first
character is `@` (kernel-computable model of `String.startsWith`). -/
def startsWithChar (c : Char) (x : String) : Bool :=
  match x.data with
  | [] => false
  | a :: _ => a = c

/-- A board token: `x.startsWith('@') && x.length > 1`. -/
def isBoardTag (x : String) : Bool := startsWithChar '@' x && decide (1 < x.length)

/-- The `{boards, description, id, priority}` record built by `_getOptions`. -/
structure CreateOptions where
  boards : List String
  description : String
  id : Nat
  priority : Nat
  deriving Repr, DecidableEq

/-- `_getOptions(input)` (lines 112-136): exit on empty input; otherwise
allocate the id, take the first priority token's digit (default 1), split
the non-priority tokens in order into board tags and description words,
join the description, and default boards to `['My Board']`. -/
def _getOptions (data : Collection) (input : List String) : Res CreateOptions :=
  if input.isEmpty then Except.error TbError.exited
  else
    let id := _generateID data
    let priority := _getPriority input
    let rest := input.filter (fun x => !_isPriorityOpt x)
    let boards := rest.filter isBoardTag
    let desc := rest.filter (fun x => !isBoardTag x)
    let description := String.intercalate " " desc
    Except.ok
      { boards := if boards.isEmpty then ["My Board"] else boards
        description := description
        id := id
        priority := priority }

/-- Modelled from the spec: the `Task` class (`task.js` is not under
`src/`); per the data model a fresh Task has the given id, creation date,
description, boards and priority, with `isStarred`, `isComplete` and
`inProgress` all false by default. -/
def newTask (id : Nat) (date description : String) (boards : List String)
    (priority : Nat) : Item :=
  { itemId := id, date := date, description := description, boards := boards
    isStarred := false, isTask := true, priority := priority
    isComplete := false, inProgress := false }

/-- Modelled from the spec: the `Note` class (`note.js` is not under
`src/`); a Note has no priority/completion fields, so the task-only slots
stay at their JS-falsy defaults (`false`, priority 1). -/
def newNote (id : Nat) (date description : String) (boards : List String) : Item :=
  { itemId := id, date := date, description := description, boards := boards
    isStarred := false, isTask := false, priority := 1
    isComplete := false, inProgress := false }

/-- `createTask(desc)` (lines 397-404): parse options, build the task and
store it under the fresh id. -/
def createTask (date : String) (input : List String) (data : Collection) :
    Res Collection :=
  match _getOptions data input with
  | Except.error e => Except.error e
  | Except.ok o =>
      Except.ok (setItem o.id (newTask o.id date o.description o.boards o.priority) data)

/-- `createNote(desc)` (lines 341-348). -/
def createNote (date : String) (input : List String) (data : Collection) :
    Res Collection :=
  match _getOptions data input with
  | Except.error e => Except.error e
  | Except.ok o =>
      Except.ok (setItem o.id (newNote o.id date o.description o.boards) data)

/-! ## Query / filter / group engine

Each `_filterXxx` of the source deletes the non-matching keys of its
argument **in place** (`delete data[id]`) and returns the same object, so
after the call the argument holds exactly the returned collection.  The
pure `_filterXxx` below compute that resulting collection; the `...Run`
wrappers return the pair (returned value, post-state of the `data`
argument) so that aliasing is observable. -/

/-- `_filterTask` (lines 164-171). -/
def _filterTask (data : Collection) : Collection :=
  data.filter (fun p => p.2.isTask)

/-- `_filterStarred` (lines 173-180). -/
def _filterStarred (data : Collection) : Collection :=
  data.filter (fun p => p.2.isStarred)

/-- `_filterInProgress` (lines 182-189). -/
def _filterInProgress (data : Collection) : Collection :=
  data.filter (fun p => p.2.isTask && p.2.inProgress)

/-- `_filterComplete` (lines 191-198). -/
def _filterComplete (data : Collection) : Collection :=
  data.filter (fun p => p.2.isTask && p.2.isComplete)

/-- `_filterPending` (lines 200-207). -/
def _filterPending (data : Collection) : Collection :=
  data.filter (fun p => p.2.isTask && !p.2.isComplete)

/-- `_filterNote` (lines 209-216). -/
def _filterNote (data : Collection) : Collection :=
  data.filter (fun p => !p.2.isTask)

/-- `_filterByAttributes(attr, data)` (lines 218-268): return an empty
`data` untouched, otherwise apply the tag-selected filters in sequence;
an unrecognized tag falls through the `switch` unchanged. -/
def _filterByAttributes (attr : List String) (data : Collection) : Collection :=
  if data.isEmpty then data
  else
    attr.foldl (fun d x =>
      match x with
      | "star" | "starred" => _filterStarred d
      | "done" | "checked" | "complete" => _filterComplete d
      | "progress" | "started" | "begun" => _filterInProgress d
      | "pending" | "unchecked" | "incomplete" => _filterPending d
      | "todo" | "task" | "tasks" => _filterTask d
      | "note" | "notes" => _filterNote d
      | _ => d) data

/-- Call semantics of `_filterByAttributes`: (result, post-state of the
`data` argument).  The source's filters remove keys of `data` itself, so
the argument ends up equal to the returned collection. -/
def _filterByAttributesRun (attr : List String) (data : Collection) :
    Collection × Collection :=
  (_filterByAttributes attr data, _filterByAttributes attr data)

/-- `_getBoards()` (lines 73-82): `'My Board'` first, then every board of
every item not already collected (an item's own duplicate boards are both
appended, since the filter runs before the push). -/
def _getBoards (data : Collection) : List String :=
  data.foldl
    (fun boards p => boards ++ p.2.boards.filter (fun x => !boards.contains x))
    ["My Board"]

/-- `_getDates(data)` (lines 84-98). -/
def _getDates (data : Collection) : List String :=
  data.foldl
    (fun dates p => if dates.contains p.2.date then dates else dates ++ [p.2.date])
    []

/-- `grouped[key].push(item)`, creating the bucket on first use. -/
def addToBucket (g : List (String × List Item)) (key : String) (it : Item) :
    List (String × List Item) :=
  if (g.find? (fun q => q.1 = key)).isSome then
    g.map (fun q => if q.1 = key then (key, q.2 ++ [it]) else q)
  else g ++ [(key, [it])]

/-- `_groupByBoard(data, boards)` (lines 270-294), with the board list
already resolved: items outer, boards inner, an item landing in every
bucket whose board it carries. -/
def _groupByBoard (data : Collection) (boards : List String) :
    List (String × List Item) :=
  data.foldl
    (fun g p =>
      boards.foldl
        (fun g2 board =>
          if p.2.boards.contains board then addToBucket g2 board p.2 else g2)
        g)
    []

/-- Call semantics of `_groupByBoard` (default board list from
`_getBoards` when none is supplied): it only reads `data`, so the
argument's post-state is the argument itself. -/
def _groupByBoardRun (data : Collection) (boards : List String) :
    List (String × List Item) × Collection :=
  let bs := if boards.isEmpty then _getBoards data else boards
  (_groupByBoard data bs, data)

/-- `_groupByDate(data, dates)` (lines 296-319). -/
def _groupByDate (data : Collection) (dates : List String) :
    List (String × List Item) :=
  data.foldl
    (fun g p =>
      dates.foldl
        (fun g2 date => if p.2.date = date then addToBucket g2 date p.2 else g2)
        g)
    []

/-- Call semantics of `_groupByDate`: reads `data` only. -/
def _groupByDateRun (data : Collection) (dates : List String) :
    List (String × List Item) × Collection :=
  (_groupByDate data dates, data)

/-- Prefix test on character lists. -/
def charsPrefixOf : List Char → List Char → Bool
  | [], _ => true
  | _ :: _, [] => false
  | a :: as, b :: bs => a = b && charsPrefixOf as bs

/-- Substring occurrence test on character lists (`indexOf(...) > -1`). -/
def charsSubOf (sub : List Char) : List Char → Bool
  | [] => sub.isEmpty
  | b :: bs => charsPrefixOf sub (b :: bs) || charsSubOf sub bs

/-- `string.indexOf(term) > -1` after lowercasing both sides. -/
def strIncludes (s pat : String) : Bool := charsSubOf pat.data s.data

/-- `_hasTerms(string, terms)` (lines 156-162): some term occurs
case-insensitively in the string (`toLocaleLowerCase` modelled as ASCII
`String.toLower`). -/
def _hasTerms (s : String) (terms : List String) : Bool :=
  terms.any (fun t => strIncludes s.toLower t.toLower)

/-- `findItems(terms)` (lines 463-476) builds a fresh `result` object of
the matching entries; call semantics (result, post-state of `data`). -/
def findItemsRun (terms : List String) (data : Collection) :
    Collection × Collection :=
  (data.filter (fun p => _hasTerms p.2.description terms), data)

/-! ## Command orchestration -/

/-- Body of the `checkTasks` loop (lines 366-372) for one id: a task gets
`inProgress = false` and `isComplete` toggled and is bucketed as checked
or unchecked; a note is skipped.  Validated ids are always present, so the
`none` branch is unreachable. -/
def checkStep (acc : Collection × List Nat × List Nat) (id : Nat) :
    Collection × List Nat × List Nat :=
  match lookup id acc.1 with
  | some it =>
      if it.isTask then
        let it2 := { it with inProgress := false, isComplete := !it.isComplete }
        (setItem id it2 acc.1,
         if it2.isComplete then acc.2.1 ++ [id] else acc.2.1,
         if it2.isComplete then acc.2.2 else acc.2.2 ++ [id])
      else acc
  | none => acc

/-- `checkTasks(ids)` (lines 361-377): validate (with `await`), then fold
the toggle over the validated ids; returns the saved collection and the
checked/unchecked buckets. -/
def checkTasks (ids : List Nat) (data : Collection) :
    Res (Collection × List Nat × List Nat) :=
  match _validateIDs ids (getIDs data) with
  | Except.error e => Except.error e
  | Except.ok ids2 => Except.ok (ids2.foldl checkStep (data, [], []))

/-- `beginTasks(ids)` (lines 379-395): the source reads
`ids = this._validateIDs(ids)` **without** `await`, so `ids` is a Promise
and `ids.forEach` throws a TypeError before any item is touched or saved
(for invalid ids the suspended validation may instead exit the process
first; in every schedule the command errors with no write). -/
def beginTasks (ids : List Nat) (data : Collection) :
    Res (Collection × List Nat × List Nat) :=
  Except.error TbError.crashed

/-- Body of the `starItems` loop (lines 548-551): toggle `isStarred`
unconditionally (tasks and notes alike) and bucket the id. -/
def starStep (acc : Collection × List Nat × List Nat) (id : Nat) :
    Collection × List Nat × List Nat :=
  match lookup id acc.1 with
  | some it =>
      let it2 := { it with isStarred := !it.isStarred }
      (setItem id it2 acc.1,
       if it2.isStarred then acc.2.1 ++ [id] else acc.2.1,
       if it2.isStarred then acc.2.2 else acc.2.2 ++ [id])
  | none => acc

/-- `starItems(ids)` (lines 543-556). -/
def starItems (ids : List Nat) (data : Collection) :
    Res (Collection × List Nat × List Nat) :=
  match _validateIDs ids (getIDs data) with
  | Except.error e => Except.error e
  | Except.ok ids2 => Except.ok (ids2.foldl starStep (data, [], []))

/-- JS `Number(s)` on an id string restricted to the cases the program
meets: `Number('') = 0`, digits parse, anything else is NaN (`none`). -/
def jsNumber (s : String) : Option Nat :=
  if s.isEmpty then some 0 else s.toNat?

/-- `_validateIDs` applied to the single id string
`target.replace('@', '')` of the single-target commands: exit on the empty
string, on a NaN id (never found) and on an id missing from the existing
ids. -/
def validateSingleID (idStr : String) (existing : List Nat) : Res Nat :=
  if idStr.isEmpty then Except.error TbError.exited
  else
    match jsNumber idStr with
    | some n => if existing.contains n then Except.ok n else Except.error TbError.exited
    | none => Except.error TbError.exited

/-- `moveBoards(input)` (lines 496-528): exactly one `@id` target, the
other tokens become boards (`myboard` → `My Board`, else `@` is
prepended), missing boards exit, boards are deduplicated and assigned. -/
def moveBoards (input : List String) (data : Collection) : Res Collection :=
  let targets := input.filter (fun x => startsWithChar '@' x)
  if targets.isEmpty then Except.error TbError.exited
  else if 1 < targets.length then Except.error TbError.exited
  else
    let target := targets.headD ""
    match validateSingleID (target.drop 1) (getIDs data) with
    | Except.error e => Except.error e
    | Except.ok id =>
        let boards := (input.filter (fun x => x ≠ target)).map
          (fun x => if x = "myboard" then "My Board" else "@" ++ x)
        if boards.isEmpty then Except.error TbError.exited
        else
          match lookup id data with
          | some it =>
              Except.ok (setItem id { it with boards := _removeDuplicates boards } data)
          | none => Except.error TbError.crashed

/-- `editDescription(input)` (lines 435-461): the target and
empty-description checks exit as in the source, but
`const id = this._validateIDs(...)` lacks `await`, so `id` is a Promise,
`_data[id]` is `undefined` and the assignment throws a TypeError; the
command never writes. -/
def editDescription (input : List String) (data : Collection) : Res Collection :=
  let targets := input.filter (fun x => startsWithChar '@' x)
  if targets.isEmpty then Except.error TbError.exited
  else if 1 < targets.length then Except.error TbError.exited
  else
    let target := targets.headD ""
    let newDesc := String.intercalate " " (input.filter (fun x => x ≠ target))
    if newDesc.isEmpty then Except.error TbError.exited
    else Except.error TbError.crashed

/-- `updatePriority(input)` (lines 558-585): first token among
`'1','2','3'` is the level (missing level exits), exactly one `@id`
target, then the item's priority is set to the level. -/
def updatePriority (input : List String) (data : Collection) : Res Collection :=
  match input.find? (fun x => (["1", "2", "3"] : List String).contains x) with
  | none => Except.error TbError.exited
  | some level =>
      let targets := input.filter (fun x => startsWithChar '@' x)
      if targets.isEmpty then Except.error TbError.exited
      else if 1 < targets.length then Except.error TbError.exited
      else
        let target := targets.headD ""
        match validateSingleID (target.drop 1) (getIDs data) with
        | Except.error e => Except.error e
        | Except.ok id =>
            match lookup id data with
            | some it => Except.ok (setItem id { it with priority := priorityDigit level } data)
            | none => Except.error TbError.crashed

/-- One iteration of the `deleteItems` loop (lines 410-413) together with
`_saveItemToArchive` (lines 321-329): allocate a fresh archive id, store
the item there under the new id (`item._id = archiveID`), and delete it
from the active collection. -/
def delStep (acc : Collection × Collection) (id : Nat) : Collection × Collection :=
  match lookup id acc.1 with
  | some it =>
      let archiveID := _generateID acc.2
      (eraseItem id acc.1, setItem archiveID { it with itemId := archiveID } acc.2)
  | none => acc

/-- `deleteItems(ids)` (lines 406-417): validate against the active
collection, then move each item into the archive under a fresh archive id.
Returns (active, archive) after the saves. -/
def deleteItems (ids : List Nat) (data archive : Collection) :
    Res (Collection × Collection) :=
  match _validateIDs ids (getIDs data) with
  | Except.error e => Except.error e
  | Except.ok ids2 => Except.ok (ids2.foldl delStep (data, archive))

/-- `restoreItems(ids)` (lines 530-541): the validation against the
archive ids runs synchronously (its `existingIDs` argument is supplied),
so an empty or invalid id list exits; but the call lacks `await`, so on
success `ids` is a Promise and `ids.forEach` throws a TypeError before
anything is restored or saved. -/
def restoreItems (ids : List Nat) (data archive : Collection) :
    Res (Collection × Collection) :=
  match _validateIDs ids (getIDs archive) with
  | Except.error e => Except.error e
  | Except.ok _ => Except.error TbError.crashed

/-- `clear()` (lines 587-602): collect the ids whose item has
`isComplete` truthy (a note's absent field is falsy), do nothing when
there are none, else delegate to `deleteItems`. -/
def clear (data archive : Collection) : Res (Collection × Collection) :=
  let ids := (data.filter (fun p => p.2.isComplete)).map (·.1)
  if ids.isEmpty then Except.ok (data, archive)
  else deleteItems ids data archive

/-! ## Remote (dynamo) backend, `src/storage.js` lines 112-133 -/

/-- A transport-level failure of the HTTP client. -/
structure TransportError where
  message : String
  deriving Repr, DecidableEq

/-- The `res.data` payload of the GET: an optional JSON-encoded value. -/
structure DynamoResponse where
  value : Option String
  deriving Repr, DecidableEq

/-- `_getFromDynamo()` (storage.js lines 112-125): issue the single GET
(`attempts n` is the outcome the transport would give the n-th request;
only request 0 is ever made), parse a present value, and return `{}` both
for an absent value and — via `catch` — for any transport failure.
`JSON.parse` is abstracted as `parse`. -/
def _getFromDynamo (parse : String → Collection)
    (attempts : Nat → Except TransportError DynamoResponse) : Collection :=
  match attempts 0 with
  | Except.error _ => []
  | Except.ok r =>
      match r.value with
      | some v => parse v
      | none => []

/-- `_setToDynamo(data)` (storage.js lines 127-133): issue the single PUT
and swallow any transport failure (`catch(err) {}`), so the caller always
sees a normal completion. -/
def _setToDynamo (attempts : Nat → Except TransportError Unit) :
    Except TransportError Unit :=
  match attempts 0 with
  | Except.ok u => Except.ok u
  | Except.error _ => Except.ok ()

/-! ## Invariant and sample data -/

/-- The §3 invariant: no item of the collection has both `isComplete` and
`inProgress` set (notes keep both flags falsy, so this is exactly "a Task
never has both"). -/
def InvFlags (data : Collection) : Prop :=
  ∀ p ∈ data, (p.2.isComplete && p.2.inProgress) = false

instance (data : Collection) : Decidable (InvFlags data) := by
  unfold InvFlags
  infer_instance

/-- A sample pending task. -/
def sampleTask : Item :=
  { itemId := 1, date := "2024-01-01", description := "buy milk"
    boards := ["My Board"], isStarred := false, isTask := true
    priority := 1, isComplete := false, inProgress := false }

/-- A sample note. -/
def sampleNote : Item :=
  { itemId := 2, date := "2024-01-01", description := "a note"
    boards := ["My Board"], isStarred := false, isTask := false
    priority := 1, isComplete := false, inProgress := false }

/-- A sample active collection: one task, one note. -/
def sampleData : Collection := [(1, sampleTask), (2, sampleNote)]

/-- A sample archive collection. -/
def sampleArchive : Collection := [(3, { sampleNote with itemId := 3 })]

/-! ## Helper lemmas -/

theorem lookup_setItem_self (id : Nat) (it : Item) (d : Collection) :
    lookup id (setItem id it d) = some it := by
  induction d with
  | nil => simp [setItem, lookup]
  | cons p rest ih =>
    by_cases h : p.1 = id
    · simp [setItem, h, lookup]
    · simp [setItem, h, lookup, ih]

theorem lookup_setItem_ne (id id' : Nat) (it : Item) (d : Collection)
    (h : id' ≠ id) : lookup id' (setItem id it d) = lookup id' d := by
  have hne : ¬(id = id') := fun e => h (Eq.symm e)
  induction d with
  | nil => simp [setItem, lookup, hne]
  | cons p rest ih =>
    by_cases hp : p.1 = id
    · simp [setItem, lookup, hp, hne]
    · simp [setItem, lookup, hp, ih]

theorem mem_setItem (id : Nat) (it : Item) (d : Collection) (q : Nat × Item)
    (hq : q ∈ setItem id it d) : q = (id, it) ∨ q ∈ d := by
  induction d with
  | nil => simpa [setItem] using hq
  | cons p rest ih =>
    by_cases hp : p.1 = id
    · simp only [setItem, hp, if_pos] at hq
      rcases List.mem_cons.mp hq with h | h
      · exact Or.inl h
      · exact Or.inr (List.mem_cons_of_mem _ h)
    · simp only [setItem, hp, if_neg, not_false_iff] at hq
      rcases List.mem_cons.mp hq with h | h
      · exact Or.inr (h ▸ List.mem_cons_self _ _)
      · rcases ih h with h2 | h2
        · exact Or.inl h2
        · exact Or.inr (List.mem_cons_of_mem _ h2)

theorem mem_eraseItem (id : Nat) (d : Collection) (q : Nat × Item)
    (hq : q ∈ eraseItem id d) : q ∈ d := by
  induction d with
  | nil => simp [eraseItem] at hq
  | cons p rest ih =>
    by_cases hp : p.1 = id
    · simp only [eraseItem, hp, if_pos] at hq
      exact List.mem_cons_of_mem _ hq
    · simp only [eraseItem, hp, if_neg, not_false_iff] at hq
      rcases List.mem_cons.mp hq with h | h
      · exact h ▸ List.mem_cons_self _ _
      · exact List.mem_cons_of_mem _ (ih h)

theorem lookup_mem (id : Nat) (it : Item) (d : Collection)
    (h : lookup id d = some it) : (id, it) ∈ d := by
  induction d with
  | nil => simp [lookup] at h
  | cons p rest ih =>
    by_cases hp : p.1 = id
    · rw [lookup, if_pos hp] at h
      have h2 : p.2 = it := Option.some.inj h
      have hpe : p = (id, it) := by
        obtain ⟨a, b⟩ := p
        simp_all
      exact hpe ▸ List.mem_cons_self _ _
    · rw [lookup, if_neg hp] at h
      exact List.mem_cons_of_mem _ (ih h)

theorem mem_getIDs_of_lookup (id : Nat) (it : Item) (d : Collection)
    (h : lookup id d = some it) : id ∈ getIDs d :=
  List.mem_map.mpr ⟨(id, it), lookup_mem id it d h, rfl⟩

theorem lookup_eq_none_of_not_mem (id : Nat) (d : Collection)
    (h : id ∉ getIDs d) : lookup id d = none := by
  induction d with
  | nil => rfl
  | cons p rest ih =>
    have h1 : p.1 ≠ id := fun e => h (e ▸ List.mem_map.mpr ⟨p, List.mem_cons_self _ _, rfl⟩)
    have h2 : id ∉ getIDs rest := fun hm => by
      rcases List.mem_map.mp hm with ⟨q, hq, he⟩
      exact h (List.mem_map.mpr ⟨q, List.mem_cons_of_mem _ hq, he⟩)
    simpa [lookup, h1] using ih h2

theorem foldl_max_eq_or_mem (l : List Nat) :
    ∀ a : Nat, l.foldl Nat.max a = a ∨ l.foldl Nat.max a ∈ l := by
  induction l with
  | nil => intro a; exact Or.inl rfl
  | cons x xs ih =>
    intro a
    rcases ih (Nat.max a x) with h | h
    · rcases max_choice a x with hm | hm
      · exact Or.inl (by rw [List.foldl_cons, h]; exact hm)
      · refine Or.inr ?_
        rw [List.foldl_cons, h, show Nat.max a x = x from hm]
        exact List.mem_cons_self _ _
    · exact Or.inr (List.mem_cons_of_mem _ h)

theorem le_foldl_max (l : List Nat) :
    ∀ a : Nat, a ≤ l.foldl Nat.max a ∧ ∀ k ∈ l, k ≤ l.foldl Nat.max a := by
  induction l with
  | nil => intro a; exact ⟨Nat.le_refl a, by intro k hk; cases hk⟩
  | cons x xs ih =>
    intro a
    refine ⟨Nat.le_trans (Nat.le_max_left a x) (ih (Nat.max a x)).1, ?_⟩
    intro k hk
    rcases List.mem_cons.mp hk with rfl | hk2
    · exact Nat.le_trans (Nat.le_max_right a k) (ih (Nat.max a k)).1
    · exact (ih (Nat.max a x)).2 k hk2

theorem mem_lt_generateID (k : Nat) (d : Collection)
    (h : k ∈ getIDs d) : k < _generateID d := by
  unfold _generateID
  have hne : (getIDs d).isEmpty = false := by
    cases hd : getIDs d with
    | nil => rw [hd] at h; cases h
    | cons x xs => rfl
  simp only [hne, if_neg, Bool.false_eq_true, not_false_iff]
  exact Nat.lt_succ_of_le ((le_foldl_max (getIDs d) 0).2 k h)

theorem lookup_generateID (d : Collection) : lookup (_generateID d) d = none :=
  lookup_eq_none_of_not_mem _ d
    (fun h => Nat.lt_irrefl _ (mem_lt_generateID _ d h))

theorem mem_removeDuplicates [DecidableEq α] (a : α) (l : List α) :
    a ∈ _removeDuplicates l ↔ a ∈ l := by
  generalize hn : l.length = n
  induction n using Nat.strong_induction_on generalizing l with
  | _ n ih =>
    match l with
    | [] => simp [_removeDuplicates]
    | x :: xs =>
      have hlen : (xs.filter (fun y => y ≠ x)).length < n := by
        subst hn
        simp only [List.length_cons]
        exact Nat.lt_succ_of_le (List.length_filter_le _ _)
      rw [_removeDuplicates]
      constructor
      · intro h
        rcases List.mem_cons.mp h with rfl | h2
        · exact List.mem_cons_self _ _
        · have := (ih _ hlen _ rfl).mp h2
          exact List.mem_cons_of_mem _ (List.mem_filter.mp this).1
      · intro h
        rcases List.mem_cons.mp h with rfl | h2
        · exact List.mem_cons_self _ _
        · by_cases hax : a = x
          · exact hax ▸ List.mem_cons_self _ _
          · refine List.mem_cons_of_mem _ ((ih _ hlen _ rfl).mpr ?_)
            exact List.mem_filter.mpr ⟨h2, by simpa using hax⟩

theorem nodup_removeDuplicates [DecidableEq α] (l : List α) :
    (_removeDuplicates l).Nodup := by
  generalize hn : l.length = n
  induction n using Nat.strong_induction_on generalizing l with
  | _ n ih =>
    match l with
    | [] => simp [_removeDuplicates]
    | x :: xs =>
      have hlen : (xs.filter (fun y => y ≠ x)).length < n := by
        subst hn
        simp only [List.length_cons]
        exact Nat.lt_succ_of_le (List.length_filter_le _ _)
      rw [_removeDuplicates]
      refine List.nodup_cons.mpr ⟨?_, ih _ hlen _ rfl⟩
      intro hmem
      have := (mem_removeDuplicates x _).mp hmem
      simpa using (List.mem_filter.mp this).2

theorem foldlPreserve {α β : Type} (P : β → Prop) (f : β → α → β)
    (h : ∀ b x, P b → P (f b x)) :
    ∀ (l : List α) (b : β), P b → P (l.foldl f b) := by
  intro l
  induction l with
  | nil => intro b hb; exact hb
  | cons x xs ih => intro b hb; exact ih _ (h b x hb)

theorem invFlags_setItem (id : Nat) (it : Item) (d : Collection)
    (h : InvFlags d) (hit : (it.isComplete && it.inProgress) = false) :
    InvFlags (setItem id it d) := by
  intro q hq
  rcases mem_setItem id it d q hq with rfl | hq2
  · exact hit
  · exact h q hq2

theorem invFlags_eraseItem (id : Nat) (d : Collection)
    (h : InvFlags d) : InvFlags (eraseItem id d) :=
  fun q hq => h q (mem_eraseItem id d q hq)

theorem invFlags_lookup (id : Nat) (it : Item) (d : Collection)
    (h : InvFlags d) (hl : lookup id d = some it) :
    (it.isComplete && it.inProgress) = false :=
  h (id, it) (lookup_mem id it d hl)

theorem checkStep_inv (acc : Collection × List Nat × List Nat) (x : Nat)
    (h : InvFlags acc.1) : InvFlags (checkStep acc x).1 := by
  unfold checkStep
  cases hl : lookup x acc.1 with
  | none => exact h
  | some it =>
    by_cases ht : it.isTask
    · simp only [ht, if_pos]
      exact invFlags_setItem _ _ _ h (by simp)
    · simpa [ht] using h

theorem starStep_inv (acc : Collection × List Nat × List Nat) (x : Nat)
    (h : InvFlags acc.1) : InvFlags (starStep acc x).1 := by
  unfold starStep
  cases hl : lookup x acc.1 with
  | none => exact h
  | some it =>
    exact invFlags_setItem _ _ _ h (invFlags_lookup x it acc.1 h hl)

theorem delStep_inv (acc : Collection × Collection) (x : Nat)
    (h : InvFlags acc.1 ∧ InvFlags acc.2) :
    InvFlags (delStep acc x).1 ∧ InvFlags (delStep acc x).2 := by
  unfold delStep
  cases hl : lookup x acc.1 with
  | none => exact h
  | some it =>
    exact ⟨invFlags_eraseItem _ _ h.1,
      invFlags_setItem _ _ _ h.2 (invFlags_lookup x it acc.1 h.1 hl)⟩

theorem checkTasks_inv (ids : List Nat) (data : Collection) (h : InvFlags data)
    (r : Collection × List Nat × List Nat)
    (hr : checkTasks ids data = Except.ok r) : InvFlags r.1 := by
  unfold checkTasks at hr
  cases hv : _validateIDs ids (getIDs data) with
  | error e => rw [hv] at hr; cases hr
  | ok ids2 =>
    rw [hv] at hr
    obtain rfl := Except.ok.inj hr
    exact foldlPreserve (fun acc => InvFlags acc.1) checkStep
      (fun b x hb => checkStep_inv b x hb) ids2 (data, [], []) h

theorem starItems_inv (ids : List Nat) (data : Collection) (h : InvFlags data)
    (r : Collection × List Nat × List Nat)
    (hr : starItems ids data = Except.ok r) : InvFlags r.1 := by
  unfold starItems at hr
  cases hv : _validateIDs ids (getIDs data) with
  | error e => rw [hv] at hr; cases hr
  | ok ids2 =>
    rw [hv] at hr
    obtain rfl := Except.ok.inj hr
    exact foldlPreserve (fun acc => InvFlags acc.1) starStep
      (fun b x hb => starStep_inv b x hb) ids2 (data, [], []) h

theorem deleteItems_inv (ids : List Nat) (data archive : Collection)
    (hd : InvFlags data) (ha : InvFlags archive) (r : Collection × Collection)
    (hr : deleteItems ids data archive = Except.ok r) :
    InvFlags r.1 ∧ InvFlags r.2 := by
  unfold deleteItems at hr
  cases hv : _validateIDs ids (getIDs data) with
  | error e => rw [hv] at hr; cases hr
  | ok ids2 =>
    rw [hv] at hr
    obtain rfl := Except.ok.inj hr
    exact foldlPreserve (fun acc => InvFlags acc.1 ∧ InvFlags acc.2) delStep
      (fun b x hb => delStep_inv b x hb) ids2 (data, archive) ⟨hd, ha⟩

theorem clear_inv (data archive : Collection)
    (hd : InvFlags data) (ha : InvFlags archive) (r : Collection × Collection)
    (hr : clear data archive = Except.ok r) :
    InvFlags r.1 ∧ InvFlags r.2 := by
  unfold clear at hr
  by_cases hids : ((data.filter (fun p => p.2.isComplete)).map (·.1)).isEmpty
  · simp only [hids, if_pos] at hr
    obtain rfl := Except.ok.inj hr
    exact ⟨hd, ha⟩
  · simp only [hids, if_neg, Bool.false_eq_true, not_false_iff] at hr
    exact deleteItems_inv _ data archive hd ha r hr

theorem createTask_inv (date : String) (input : List String) (data : Collection)
    (h : InvFlags data) (d' : Collection)
    (hr : createTask date input data = Except.ok d') : InvFlags d' := by
  unfold createTask at hr
  cases ho : _getOptions data input with
  | error e => rw [ho] at hr; cases hr
  | ok o =>
    rw [ho] at hr
    obtain rfl := Except.ok.inj hr
    exact invFlags_setItem _ _ _ h rfl

theorem createNote_inv (date : String) (input : List String) (data : Collection)
    (h : InvFlags data) (d' : Collection)
    (hr : createNote date input data = Except.ok d') : InvFlags d' := by
  unfold createNote at hr
  cases ho : _getOptions data input with
  | error e => rw [ho] at hr; cases hr
  | ok o =>
    rw [ho] at hr
    obtain rfl := Except.ok.inj hr
    exact invFlags_setItem _ _ _ h rfl

theorem moveBoards_inv (input : List String) (data : Collection)
    (h : InvFlags data) (d' : Collection)
    (hr : moveBoards input data = Except.ok d') : InvFlags d' := by
  simp only [moveBoards] at hr
  repeat' split at hr
  all_goals try cases hr
  all_goals
    rename_i it heq
    exact invFlags_setItem _ _ _ h (invFlags_lookup _ it data h heq)

theorem updatePriority_inv (input : List String) (data : Collection)
    (h : InvFlags data) (d' : Collection)
    (hr : updatePriority input data = Except.ok d') : InvFlags d' := by
  simp only [updatePriority] at hr
  repeat' split at hr
  all_goals try cases hr
  all_goals
    rename_i it heq
    exact invFlags_setItem _ _ _ h (invFlags_lookup _ it data h heq)

theorem contains_iff_mem (l : List Nat) (a : Nat) :
    l.contains a = true ↔ a ∈ l :=
  ⟨List.mem_of_elem_eq_true, List.elem_eq_true_of_mem⟩

theorem validateIDs_singleton (id : Nat) (existing : List Nat) (h : id ∈ existing) :
    _validateIDs [id] existing = Except.ok [id] := by
  have hd : _removeDuplicates [id] = [id] := by
    rw [_removeDuplicates]
    simp [_removeDuplicates]
  simp [_validateIDs, hd, h]

theorem checkTasks_singleton (id : Nat) (data : Collection) (it : Item)
    (hl : lookup id data = some it) (ht : it.isTask = true) :
    ∃ b u, checkTasks [id] data = Except.ok
      (setItem id { it with inProgress := false, isComplete := !it.isComplete } data,
       b, u) := by
  have h1 : checkTasks [id] data = Except.ok (checkStep (data, [], []) id) := by
    unfold checkTasks
    rw [validateIDs_singleton id (getIDs data) (mem_getIDs_of_lookup id it data hl)]
    rfl
  have h2 : (checkStep (data, [], []) id).1 =
      setItem id { it with inProgress := false, isComplete := !it.isComplete } data := by
    simp [checkStep, hl, ht]
  refine ⟨(checkStep (data, [], []) id).2.1, (checkStep (data, [], []) id).2.2, ?_⟩
  rw [h1, ← h2]

/-! ## Claim theorems -/

/-- C1 (counterexample): attribute filtering does NOT leave the input
collection unchanged — filtering the sample collection by `done` empties
the argument object itself (the source deletes its keys in place), so its
post-state differs from the collection that was passed in. -/
theorem c1_filter_mutates_input :
    (_filterByAttributesRun ["done"] sampleData).2 ≠ sampleData := by decide

/-- C1 (amended): the attribute filters mutate the collection they are
given — after a call the argument holds exactly the returned filtered
collection — while grouping by board, grouping by date and substring
search leave the input collection unchanged and return new structures. -/
theorem c1_engine_aliasing (attr boards dates terms : List String)
    (data : Collection) :
    (_filterByAttributesRun attr data).2 = (_filterByAttributesRun attr data).1 ∧
    (_groupByBoardRun data boards).2 = data ∧
    (_groupByDateRun data dates).2 = data ∧
    (findItemsRun terms data).2 = data :=
  ⟨rfl, rfl, rfl, rfl⟩

/-- C2: the id allocator returns `max(existing ids) + 1` on every
non-empty collection and `1` on the empty collection. -/
theorem c2_generateID (data : Collection) :
    (data = [] → _generateID data = 1) ∧
    (data ≠ [] → ∃ m, m ∈ getIDs data ∧ (∀ k ∈ getIDs data, k ≤ m) ∧
      _generateID data = m + 1) := by
  constructor
  · intro h; subst h; rfl
  · intro h
    have hne : (getIDs data).isEmpty = false := by
      cases data with
      | nil => exact absurd rfl h
      | cons p rest => rfl
    refine ⟨(getIDs data).foldl Nat.max 0, ?_, (le_foldl_max (getIDs data) 0).2, ?_⟩
    · rcases foldl_max_eq_or_mem (getIDs data) 0 with h0 | hm
      · rw [h0]
        cases data with
        | nil => exact absurd rfl h
        | cons p rest =>
          have hp : p.1 ∈ getIDs (p :: rest) :=
            List.mem_map.mpr ⟨p, List.mem_cons_self _ _, rfl⟩
          have hle := (le_foldl_max (getIDs (p :: rest)) 0).2 p.1 hp
          rw [h0] at hle
          exact Nat.le_zero.mp hle ▸ hp
      · exact hm
    · simp [_generateID, hne]

/-- C2 witness: on the sample collection (ids 1 and 2) the allocator
returns `2 + 1`. -/
theorem c2_generateID_witness :
    ∃ m, m ∈ getIDs sampleData ∧ (∀ k ∈ getIDs sampleData, k ≤ m) ∧
      _generateID sampleData = m + 1 :=
  (c2_generateID sampleData).2 (by decide)

/-- C3: id validation exits on an empty id list and on any id absent from
the target id list; on success it returns the input ids deduplicated (so
duplicates are not rejected), the deduplication preserves exactly the
input's ids; and a validation error aborts the command with no resulting
collection — shown for `checkTasks` (active collection) and
`restoreItems` (archive collection). -/
theorem c3_validateIDs (input existing : List Nat) :
    (input = [] → _validateIDs input existing = Except.error TbError.exited) ∧
    ((∃ id, id ∈ input ∧ id ∉ existing) →
      _validateIDs input existing = Except.error TbError.exited) ∧
    (input ≠ [] → (∀ id ∈ input, id ∈ existing) →
      _validateIDs input existing = Except.ok (_removeDuplicates input)) ∧
    ((_removeDuplicates input).Nodup ∧
      ∀ id, id ∈ _removeDuplicates input ↔ id ∈ input) ∧
    (∀ (data : Collection) (e : TbError),
      _validateIDs input (getIDs data) = Except.error e →
        checkTasks input data = Except.error e) ∧
    (∀ (data archive : Collection) (e : TbError),
      _validateIDs input (getIDs archive) = Except.error e →
        restoreItems input data archive = Except.error e) := by
  have hmem := fun id => mem_removeDuplicates id input
  refine ⟨?_, ?_, ?_, ⟨nodup_removeDuplicates input, hmem⟩, ?_, ?_⟩
  · intro h; subst h; rfl
  · rintro ⟨id, hin, hout⟩
    have hne : input.isEmpty = false := by
      cases input with
      | nil => cases hin
      | cons x xs => rfl
    simp [_validateIDs, hne]
    exact ⟨id, (hmem id).mpr hin, hout⟩
  · intro h hall
    have hne : input.isEmpty = false := by
      cases input with
      | nil => exact absurd rfl h
      | cons x xs => rfl
    simp [_validateIDs, hne]
    exact fun x hx => hall x ((hmem x).mp hx)
  · intro data e he
    unfold checkTasks
    rw [he]
  · intro data archive e he
    unfold restoreItems
    rw [he]

/-- C3 witness: the duplicated list `[1, 1]` against existing ids `[1, 2]`
validates to the deduplicated `[1]`, and `[3]` is rejected. -/
theorem c3_validateIDs_witness :
    _validateIDs [1, 1] [1, 2] = Except.ok (_removeDuplicates [1, 1]) ∧
    _validateIDs [3] [1, 2] = Except.error TbError.exited :=
  ⟨(c3_validateIDs [1, 1] [1, 2]).2.2.1 (by decide) (by decide),
   (c3_validateIDs [3] [1, 2]).2.1 ⟨3, by decide, by decide⟩⟩

/-- C9: on the remote backend, a transport failure of the single GET makes
`read` return the empty collection, the PUT always completes with no
failure reported to the caller (`catch {}`), and both operations depend
only on the outcome of the first (and only) request — no retry. -/
theorem c9_dynamo (parse : String → Collection) (e : TransportError)
    (ga gb : Nat → Except TransportError DynamoResponse)
    (wa wb : Nat → Except TransportError Unit) :
    (ga 0 = Except.error e → _getFromDynamo parse ga = []) ∧
    (_setToDynamo wa = Except.ok ()) ∧
    (ga 0 = gb 0 → _getFromDynamo parse ga = _getFromDynamo parse gb) ∧
    (wa 0 = wb 0 → _setToDynamo wa = _setToDynamo wb) := by
  refine ⟨?_, ?_, ?_, ?_⟩
  · intro h; unfold _getFromDynamo; rw [h]
  · unfold _setToDynamo
    cases h : wa 0 with
    | ok u => cases u; rfl
    | error e2 => rfl
  · intro h; unfold _getFromDynamo; rw [h]
  · intro h; unfold _setToDynamo; rw [h]

/-- C9 witness: with a transport that times out, `read` yields `[]` and
`write` still reports success. -/
theorem c9_dynamo_witness :
    _getFromDynamo (fun _ => sampleData)
      (fun _ => Except.error { message := "timeout" }) = [] ∧
    _setToDynamo (fun _ => Except.error { message := "timeout" }) =
      Except.ok () :=
  ⟨(c9_dynamo (fun _ => sampleData) { message := "timeout" }
      (fun _ => Except.error { message := "timeout" })
      (fun _ => Except.error { message := "timeout" })
      (fun _ => Except.error { message := "timeout" })
      (fun _ => Except.error { message := "timeout" })).1 rfl,
   (c9_dynamo (fun _ => sampleData) { message := "timeout" }
      (fun _ => Except.error { message := "timeout" })
      (fun _ => Except.error { message := "timeout" })
      (fun _ => Except.error { message := "timeout" })
      (fun _ => Except.error { message := "timeout" })).2.1⟩

/-- C4: the `check` half holds — checking a task once yields an item with
`inProgress = false` and toggled `isComplete`, and checking it again
yields `inProgress = false` with the original `isComplete` back — but the
symmetric claim for `begin` fails: `beginTasks` never completes on any
input (its un-awaited `_validateIDs` promise has no `forEach`), so it
never toggles `inProgress` at all. -/
theorem c4_check_twice (data : Collection) (id : Nat) (it : Item)
    (hl : lookup id data = some it) (ht : it.isTask = true) :
    (∃ d1 b1 u1 it1, checkTasks [id] data = Except.ok (d1, b1, u1) ∧
      lookup id d1 = some it1 ∧ it1.inProgress = false ∧
      it1.isComplete = !it.isComplete ∧
      ∃ d2 b2 u2 it2, checkTasks [id] d1 = Except.ok (d2, b2, u2) ∧
        lookup id d2 = some it2 ∧ it2.inProgress = false ∧
        it2.isComplete = it.isComplete) ∧
    (∀ ids (r : Collection × List Nat × List Nat),
      beginTasks ids data ≠ Except.ok r) := by
  constructor
  · obtain ⟨b1, u1, h1⟩ := checkTasks_singleton id data it hl ht
    have hl1 : lookup id
        (setItem id { it with inProgress := false, isComplete := !it.isComplete } data) =
        some { it with inProgress := false, isComplete := !it.isComplete } :=
      lookup_setItem_self id _ data
    obtain ⟨b2, u2, h2⟩ := checkTasks_singleton id _ _ hl1 ht
    refine ⟨_, b1, u1, _, h1, hl1, rfl, rfl, _, b2, u2, _, h2,
      lookup_setItem_self id _ _, rfl, ?_⟩
    exact Bool.not_not it.isComplete
  · intro ids r h
    simp [beginTasks] at h

/-- C4 witness: on the sample collection, checking task 1 twice returns it
to incomplete with `inProgress` false each time, and `beginTasks` never
returns a result. -/
theorem c4_check_twice_witness :
    (∃ d1 b1 u1 it1, checkTasks [1] sampleData = Except.ok (d1, b1, u1) ∧
      lookup 1 d1 = some it1 ∧ it1.inProgress = false ∧
      it1.isComplete = !sampleTask.isComplete ∧
      ∃ d2 b2 u2 it2, checkTasks [1] d1 = Except.ok (d2, b2, u2) ∧
        lookup 1 d2 = some it2 ∧ it2.inProgress = false ∧
        it2.isComplete = sampleTask.isComplete) ∧
    (∀ ids (r : Collection × List Nat × List Nat),
      beginTasks ids sampleData ≠ Except.ok r) :=
  c4_check_twice sampleData 1 sampleTask (by decide) (by decide)

/-- C10: the `check` half holds — a validated id whose item is a Note is
left untouched by `checkTasks` and lands in neither the checked nor the
unchecked bucket, with the command succeeding — but the `begin` half
fails: `beginTasks` errors on every input (missing `await`), so it does
not report per-Note results at all. -/
theorem c10_note_skipped (ids : List Nat) (data : Collection) (id : Nat)
    (it : Item) (hin : id ∈ ids) (hl : lookup id data = some it)
    (ht : it.isTask = false) (d' : Collection) (c u : List Nat)
    (hok : checkTasks ids data = Except.ok (d', c, u)) :
    lookup id d' = some it ∧ id ∉ c ∧ id ∉ u ∧
    (∀ r : Collection × List Nat × List Nat,
      beginTasks ids data ≠ Except.ok r) := by
  have step : ∀ (acc : Collection × List Nat × List Nat) (x : Nat),
      lookup id acc.1 = some it ∧ id ∉ acc.2.1 ∧ id ∉ acc.2.2 →
      lookup id (checkStep acc x).1 = some it ∧
      id ∉ (checkStep acc x).2.1 ∧ id ∉ (checkStep acc x).2.2 := by
    rintro acc x ⟨h1, h2, h3⟩
    by_cases hx : x = id
    · have hcs : checkStep acc x = acc := by
        subst hx
        simp [checkStep, h1, ht]
      rw [hcs]
      exact ⟨h1, h2, h3⟩
    · cases hlx : lookup x acc.1 with
      | none =>
        have hcs : checkStep acc x = acc := by simp [checkStep, hlx]
        rw [hcs]
        exact ⟨h1, h2, h3⟩
      | some itx =>
        by_cases htx : itx.isTask = true
        · simp only [checkStep, hlx]
          rw [if_pos htx]
          refine ⟨?_, ?_, ?_⟩
          · rw [lookup_setItem_ne x id _ acc.1 (fun e => hx e.symm)]
            exact h1
          · split
            · intro hmem
              rcases List.mem_append.mp hmem with hm | hm
              · exact h2 hm
              · exact hx (List.mem_singleton.mp hm).symm
            · exact h2
          · split
            · exact h3
            · intro hmem
              rcases List.mem_append.mp hmem with hm | hm
              · exact h3 hm
              · exact hx (List.mem_singleton.mp hm).symm
        · have hcs : checkStep acc x = acc := by simp [checkStep, hlx, htx]
          rw [hcs]
          exact ⟨h1, h2, h3⟩
  have key : ∀ (l : List Nat) (acc : Collection × List Nat × List Nat),
      lookup id acc.1 = some it ∧ id ∉ acc.2.1 ∧ id ∉ acc.2.2 →
      lookup id (l.foldl checkStep acc).1 = some it ∧
      id ∉ (l.foldl checkStep acc).2.1 ∧ id ∉ (l.foldl checkStep acc).2.2 := by
    intro l
    induction l with
    | nil => intro acc h; exact h
    | cons x xs ih => intro acc h; exact ih _ (step acc x h)
  unfold checkTasks at hok
  cases hv : _validateIDs ids (getIDs data) with
  | error e => rw [hv] at hok; cases hok
  | ok ids2 =>
    rw [hv] at hok
    obtain he := Except.ok.inj hok
    have := key ids2 (data, [], [])
      ⟨hl, List.not_mem_nil id, List.not_mem_nil id⟩
    rw [he] at this
    exact ⟨this.1, this.2.1, this.2.2, fun r h => by simp [beginTasks] at h⟩

/-- C10 witness: checking id `[2]` (the sample note) succeeds, leaves the
note untouched, fills neither bucket, and `beginTasks` never returns. -/
theorem c10_note_skipped_witness :
    lookup 2 sampleData = some sampleNote ∧ (2 : Nat) ∉ ([] : List Nat) ∧
    (2 : Nat) ∉ ([] : List Nat) ∧
    (∀ r : Collection × List Nat × List Nat,
      beginTasks [2] sampleData ≠ Except.ok r) :=
  c10_note_skipped [2] sampleData 2 sampleNote (by decide) (by decide)
    (by decide) sampleData [] []
    (by
      unfold checkTasks
      rw [validateIDs_singleton 2 (getIDs sampleData) (by decide)]
      rfl)

theorem getOptions_eq (data : Collection) (input : List String)
    (h : input.isEmpty = false) :
    _getOptions data input = Except.ok
      { boards :=
          if ((input.filter (fun x => !_isPriorityOpt x)).filter isBoardTag).isEmpty
          then ["My Board"]
          else (input.filter (fun x => !_isPriorityOpt x)).filter isBoardTag
        description := String.intercalate " "
          ((input.filter (fun x => !_isPriorityOpt x)).filter (fun x => !isBoardTag x))
        id := _generateID data
        priority := _getPriority input } := by
  simp [_getOptions, h]

/-- C6: `createTask` on `["buy","milk","@shopping","p:2"]` stores a new
task with description `"buy milk"`, boards `["@shopping"]` and priority
`2` under the freshly allocated id; and in general the options parser
takes the `@`-tokens of length > 1 (among non-priority tokens) as boards
(defaulting to `["My Board"]` when there are none), the remaining tokens
space-joined as the description, and the first `p:1|p:2|p:3` token's
digit as the priority (default 1). -/
theorem c6_createTask_parse (date : String) (data : Collection)
    (input : List String) :
    (∃ t : Item, createTask date ["buy", "milk", "@shopping", "p:2"] data =
        Except.ok (setItem (_generateID data) t data) ∧
      t.description = "buy milk" ∧ t.boards = ["@shopping"] ∧
      t.priority = 2 ∧ t.isTask = true ∧ t.itemId = _generateID data) ∧
    (∀ o : CreateOptions, _getOptions data input = Except.ok o →
      o.boards =
        (if (input.filter (fun x => !_isPriorityOpt x && isBoardTag x)).isEmpty
         then ["My Board"]
         else input.filter (fun x => !_isPriorityOpt x && isBoardTag x)) ∧
      o.description = String.intercalate " "
        (input.filter (fun x => !_isPriorityOpt x && !isBoardTag x)) ∧
      o.priority = (match input.find? _isPriorityOpt with
                    | some opt => priorityDigit opt
                    | none => 1) ∧
      o.id = _generateID data) := by
  constructor
  · have e1 : (["buy", "milk", "@shopping", "p:2"].filter
        (fun x => !_isPriorityOpt x)).filter isBoardTag = ["@shopping"] := by decide
    have e2 : (["buy", "milk", "@shopping", "p:2"].filter
        (fun x => !_isPriorityOpt x)).filter (fun x => !isBoardTag x) =
        ["buy", "milk"] := by decide
    have e3 : _getPriority ["buy", "milk", "@shopping", "p:2"] = 2 := by decide
    have ho : _getOptions data ["buy", "milk", "@shopping", "p:2"] = Except.ok
        { boards := ["@shopping"], description := "buy milk"
          id := _generateID data, priority := 2 } := by
      rw [getOptions_eq data ["buy", "milk", "@shopping", "p:2"] rfl, e1, e2, e3]
      rfl
    refine ⟨newTask (_generateID data) date "buy milk" ["@shopping"] 2,
      ?_, rfl, rfl, rfl, rfl, rfl⟩
    unfold createTask
    rw [ho]
  · intro o ho
    have hfb : (input.filter (fun x => !_isPriorityOpt x)).filter isBoardTag =
        input.filter (fun x => !_isPriorityOpt x && isBoardTag x) := by
      rw [List.filter_filter]
      congr 1
      funext a
      exact Bool.and_comm _ _
    have hfd : (input.filter (fun x => !_isPriorityOpt x)).filter
        (fun x => !isBoardTag x) =
        input.filter (fun x => !_isPriorityOpt x && !isBoardTag x) := by
      rw [List.filter_filter]
      congr 1
      funext a
      exact Bool.and_comm _ _
    cases hin : input.isEmpty with
    | true =>
      rw [_getOptions, if_pos hin] at ho
      cases ho
    | false =>
      rw [getOptions_eq data input hin] at ho
      obtain rfl := Except.ok.inj ho
      refine ⟨?_, ?_, rfl, rfl⟩
      · rw [← hfb]
      · rw [← hfd]

/-- C6 witness: the scenario holds on the sample collection, and the
general parse shape holds for the options it produces. -/
theorem c6_createTask_parse_witness :
    (∃ t : Item, createTask "2024-01-01" ["buy", "milk", "@shopping", "p:2"]
        sampleData = Except.ok (setItem (_generateID sampleData) t sampleData) ∧
      t.description = "buy milk" ∧ t.boards = ["@shopping"] ∧
      t.priority = 2 ∧ t.isTask = true ∧ t.itemId = _generateID sampleData) ∧
    (∀ o : CreateOptions,
      _getOptions sampleData ["buy", "milk", "@shopping", "p:2"] = Except.ok o →
      o.boards =
        (if (["buy", "milk", "@shopping", "p:2"].filter
              (fun x => !_isPriorityOpt x && isBoardTag x)).isEmpty
         then ["My Board"]
         else ["buy", "milk", "@shopping", "p:2"].filter
              (fun x => !_isPriorityOpt x && isBoardTag x)) ∧
      o.description = String.intercalate " "
        (["buy", "milk", "@shopping", "p:2"].filter
          (fun x => !_isPriorityOpt x && !isBoardTag x)) ∧
      o.priority = (match ["buy", "milk", "@shopping", "p:2"].find? _isPriorityOpt with
                    | some opt => priorityDigit opt
                    | none => 1) ∧
      o.id = _generateID sampleData) :=
  c6_createTask_parse "2024-01-01" sampleData ["buy", "milk", "@shopping", "p:2"]

/-- C7 (counterexample): a non-empty input whose description is empty
after tag removal is NOT rejected — `createTask` on `["@a"]` succeeds and
stores an item with an empty description. -/
theorem c7_empty_description_not_rejected :
    createTask "2024-01-01" ["@a"] [] =
      Except.ok [(1, newTask 1 "2024-01-01" "" ["@a"] 1)] ∧
    (newTask 1 "2024-01-01" "" ["@a"] 1).description = "" :=
  ⟨rfl, rfl⟩

/-- C7 (amended): create fails with a fatal input error exactly when the
input token list is empty; a non-empty input always creates an item, even
when the resulting description is empty. -/
theorem c7_create_fatal_iff_empty_input (date : String) (input : List String)
    (data : Collection) :
    (input = [] → createTask date input data = Except.error TbError.exited) ∧
    (input ≠ [] → ∃ d', createTask date input data = Except.ok d') := by
  constructor
  · intro h; subst h; rfl
  · intro h
    have hne : input.isEmpty = false := by
      cases input with
      | nil => exact absurd rfl h
      | cons x xs => rfl
    refine ⟨setItem (_generateID data)
      (newTask (_generateID data) date
        (String.intercalate " "
          ((input.filter (fun x => !_isPriorityOpt x)).filter (fun x => !isBoardTag x)))
        (if ((input.filter (fun x => !_isPriorityOpt x)).filter isBoardTag).isEmpty
         then ["My Board"]
         else (input.filter (fun x => !_isPriorityOpt x)).filter isBoardTag)
        (_getPriority input)) data, ?_⟩
    unfold createTask
    rw [getOptions_eq data input hne]

/-- C7 witness: an empty token list aborts; `["@a"]` creates an item. -/
theorem c7_create_fatal_witness :
    createTask "2024-01-01" [] sampleData = Except.error TbError.exited ∧
    ∃ d', createTask "2024-01-01" ["@a"] sampleData = Except.ok d' :=
  ⟨(c7_create_fatal_iff_empty_input "2024-01-01" [] sampleData).1 rfl,
   (c7_create_fatal_iff_empty_input "2024-01-01" ["@a"] sampleData).2 (by decide)⟩

/-- C5: every command preserves the mutual-exclusion invariant on
`isComplete`/`inProgress`, on the active collection and the archive alike
(`beginTasks`, `editDescription` and `restoreItems` never produce a
collection at all — they error out with no write — so they preserve it
vacuously). -/
theorem c5_invariant (date : String) (input : List String) (ids : List Nat)
    (data archive : Collection) (hd : InvFlags data) (ha : InvFlags archive) :
    (∀ d', createTask date input data = Except.ok d' → InvFlags d') ∧
    (∀ d', createNote date input data = Except.ok d' → InvFlags d') ∧
    (∀ r : Collection × List Nat × List Nat,
      checkTasks ids data = Except.ok r → InvFlags r.1) ∧
    (∀ r : Collection × List Nat × List Nat,
      beginTasks ids data = Except.ok r → InvFlags r.1) ∧
    (∀ r : Collection × List Nat × List Nat,
      starItems ids data = Except.ok r → InvFlags r.1) ∧
    (∀ d', moveBoards input data = Except.ok d' → InvFlags d') ∧
    (∀ d', editDescription input data = Except.ok d' → InvFlags d') ∧
    (∀ d', updatePriority input data = Except.ok d' → InvFlags d') ∧
    (∀ r : Collection × Collection,
      deleteItems ids data archive = Except.ok r → InvFlags r.1 ∧ InvFlags r.2) ∧
    (∀ r : Collection × Collection,
      restoreItems ids data archive = Except.ok r → InvFlags r.1 ∧ InvFlags r.2) ∧
    (∀ r : Collection × Collection,
      clear data archive = Except.ok r → InvFlags r.1 ∧ InvFlags r.2) := by
  refine ⟨fun d' hr => createTask_inv date input data hd d' hr,
    fun d' hr => createNote_inv date input data hd d' hr,
    fun r hr => checkTasks_inv ids data hd r hr,
    ?_,
    fun r hr => starItems_inv ids data hd r hr,
    fun d' hr => moveBoards_inv input data hd d' hr,
    ?_,
    fun d' hr => updatePriority_inv input data hd d' hr,
    fun r hr => deleteItems_inv ids data archive hd ha r hr,
    ?_,
    fun r hr => clear_inv data archive hd ha r hr⟩
  · intro r hr
    simp [beginTasks] at hr
  · intro d' hr
    simp only [editDescription] at hr
    repeat' split at hr
    all_goals cases hr
  · intro r hr
    unfold restoreItems at hr
    cases hv : _validateIDs ids (getIDs archive) with
    | error e => rw [hv] at hr; cases hr
    | ok l => rw [hv] at hr; cases hr

/-- C5 witness: the invariant-preservation conclusion instantiated on the
sample collections. -/
theorem c5_invariant_witness :
    (∀ d', createTask "2024-01-01" ["x"] sampleData = Except.ok d' → InvFlags d') ∧
    (∀ d', createNote "2024-01-01" ["x"] sampleData = Except.ok d' → InvFlags d') ∧
    (∀ r : Collection × List Nat × List Nat,
      checkTasks [1] sampleData = Except.ok r → InvFlags r.1) ∧
    (∀ r : Collection × List Nat × List Nat,
      beginTasks [1] sampleData = Except.ok r → InvFlags r.1) ∧
    (∀ r : Collection × List Nat × List Nat,
      starItems [1] sampleData = Except.ok r → InvFlags r.1) ∧
    (∀ d', moveBoards ["x"] sampleData = Except.ok d' → InvFlags d') ∧
    (∀ d', editDescription ["x"] sampleData = Except.ok d' → InvFlags d') ∧
    (∀ d', updatePriority ["x"] sampleData = Except.ok d' → InvFlags d') ∧
    (∀ r : Collection × Collection,
      deleteItems [1] sampleData sampleArchive = Except.ok r →
        InvFlags r.1 ∧ InvFlags r.2) ∧
    (∀ r : Collection × Collection,
      restoreItems [1] sampleData sampleArchive = Except.ok r →
        InvFlags r.1 ∧ InvFlags r.2) ∧
    (∀ r : Collection × Collection,
      clear sampleData sampleArchive = Except.ok r →
        InvFlags r.1 ∧ InvFlags r.2) :=
  c5_invariant "2024-01-01" ["x"] [1] sampleData sampleArchive
    (by decide) (by decide)

/-- C8: deleting an active item archives it under the freshly allocated
archive id (`_generateID` of the archive, a key not previously present)
with description, boards, priority and starred flag unchanged — but the
restore direction is broken: `restoreItems` never completes on any input
that passes validation (its un-awaited `_validateIDs` promise has no
`forEach`), so nothing is ever restored. -/
theorem c8_archive_restore (data archive : Collection) (id : Nat) (it : Item)
    (hl : lookup id data = some it) :
    (deleteItems [id] data archive = Except.ok
      (eraseItem id data,
       setItem (_generateID archive) { it with itemId := _generateID archive } archive)) ∧
    lookup (_generateID archive) archive = none ∧
    lookup (_generateID archive)
      (setItem (_generateID archive) { it with itemId := _generateID archive } archive) =
      some { it with itemId := _generateID archive } ∧
    ({ it with itemId := _generateID archive } : Item).description = it.description ∧
    ({ it with itemId := _generateID archive } : Item).boards = it.boards ∧
    ({ it with itemId := _generateID archive } : Item).priority = it.priority ∧
    ({ it with itemId := _generateID archive } : Item).isStarred = it.isStarred ∧
    (∀ (ids : List Nat) (d a : Collection) (r : Collection × Collection),
      restoreItems ids d a ≠ Except.ok r) := by
  refine ⟨?_, lookup_generateID archive, lookup_setItem_self _ _ _,
    rfl, rfl, rfl, rfl, ?_⟩
  · unfold deleteItems
    rw [validateIDs_singleton id (getIDs data) (mem_getIDs_of_lookup id it data hl)]
    show Except.ok (delStep (data, archive) id) = _
    simp [delStep, hl]
  · intro ids d a r hr
    unfold restoreItems at hr
    cases hv : _validateIDs ids (getIDs a) with
    | error e => rw [hv] at hr; cases hr
    | ok l => rw [hv] at hr; cases hr

/-- C8 witness: deleting task 1 from the sample collection archives it
under the fresh archive id 4 with its fields preserved; restore never
returns. -/
theorem c8_archive_restore_witness :
    (deleteItems [1] sampleData sampleArchive = Except.ok
      (eraseItem 1 sampleData,
       setItem (_generateID sampleArchive)
         { sampleTask with itemId := _generateID sampleArchive } sampleArchive)) ∧
    lookup (_generateID sampleArchive) sampleArchive = none ∧
    lookup (_generateID sampleArchive)
      (setItem (_generateID sampleArchive)
        { sampleTask with itemId := _generateID sampleArchive } sampleArchive) =
      some { sampleTask with itemId := _generateID sampleArchive } ∧
    ({ sampleTask with itemId := _generateID sampleArchive } : Item).description =
      sampleTask.description ∧
    ({ sampleTask with itemId := _generateID sampleArchive } : Item).boards =
      sampleTask.boards ∧
    ({ sampleTask with itemId := _generateID sampleArchive } : Item).priority =
      sampleTask.priority ∧
    ({ sampleTask with itemId := _generateID sampleArchive } : Item).isStarred =
      sampleTask.isStarred ∧
    (∀ (ids : List Nat) (d a : Collection) (r : Collection × Collection),
      restoreItems ids d a ≠ Except.ok r) :=
  c8_archive_restore sampleData sampleArchive 1 sampleTask (by decide)

end Taskbook
